import Mathlib

/-!
Shallow embedding of `src/app/src/main/cpp/espeak_jni.cpp`, the mock JNI
bridge for an espeak phonemizer.  The C++ file keeps two process-wide
globals, `g_initialized : bool` and `g_dataPath : std::string`, and exposes
three JNI entry points: `nativeInit`, `nativePhonemize`, `nativeCleanup`.
Each entry point is embedded as an explicit state transformer on the pair
of globals; JNI `jstring` values become Lean `String`s, the `nullptr`
return of `nativePhonemize` becomes `none`, and `JNI_TRUE` becomes `true`.
Logging calls (`LOGI`/`LOGE`) have no effect on the modelled state and are
omitted.
-/

/-- The process-wide mutable state of the bridge: the two globals declared
at lines 10-11 of `espeak_jni.cpp` (`static bool g_initialized = false;`
and `static std::string g_dataPath;`). -/
structure EngineState where
  g_initialized : Bool
  g_dataPath : String
deriving Repr, DecidableEq

/-- The state at process start: `g_initialized` is statically `false` and
`g_dataPath` is a default-constructed (empty) `std::string`. -/
def initialState : EngineState :=
  { g_initialized := false, g_dataPath := "" }

/-- `nativeInit` (lines 13-30): copies the caller-supplied `dataPath` into
`g_dataPath`, sets `g_initialized = true`, and returns `JNI_TRUE`. -/
def nativeInit (dataPath : String) (s : EngineState) : Bool × EngineState :=
  let s1 := { s with g_dataPath := dataPath }
  let s2 := { s1 with g_initialized := true }
  (true, s2)

/-- The internal fallback value computed at line 57 of the source,
`std::string result = std::string(inputText);` — a plain copy of the
input text (the adjacent comment speaks of lowercasing, but the code
performs none). -/
def phonemizeFallback (inputText : String) : String :=
  inputText

/-- `nativePhonemize` (lines 32-64): if `g_initialized` is false it returns
`nullptr` (here `none`) at once; otherwise it computes the fallback copy of
the text, discards it, and still returns `nullptr` to trigger the Kotlin
fallback.  The globals are never written. -/
def nativePhonemize (text voice : String) (s : EngineState) :
    Option String × EngineState :=
  if s.g_initialized = false then
    (none, s)
  else
    let result := phonemizeFallback text
    let returned : Option String := none
    (returned, s)

/-- `nativeCleanup` (lines 66-74): sets `g_initialized = false`.  It does
not touch `g_dataPath`. -/
def nativeCleanup (s : EngineState) : EngineState :=
  { s with g_initialized := false }

/-- The operations the bridge exposes to the host runtime. -/
inductive Op where
  | init (dataPath : String) : Op
  | phonemize (text voice : String) : Op
  | cleanup : Op
deriving Repr, DecidableEq

/-- Possible outcomes of one bridge call as seen by the host.  `fatal`
represents a crash or pending exception escaping to the host; it exists in
the outcome space so that its absence can be proved, and no entry point of
the source ever produces it. -/
inductive Outcome where
  | initResult (ok : Bool) : Outcome
  | phonemizeResult (r : Option String) : Outcome
  | cleanupDone : Outcome
  | fatal (msg : String) : Outcome
deriving Repr, DecidableEq

/-- Whether an outcome is a crash or exception escaping to the host. -/
def Outcome.isFatal : Outcome → Bool
  | .fatal _ => true
  | _ => false

/-- One call into the bridge: dispatches to the embedded entry point. -/
def step (op : Op) (s : EngineState) : Outcome × EngineState :=
  match op with
  | .init dataPath =>
      let r := nativeInit dataPath s
      (Outcome.initResult r.1, r.2)
  | .phonemize text voice =>
      let r := nativePhonemize text voice s
      (Outcome.phonemizeResult r.1, r.2)
  | .cleanup =>
      (Outcome.cleanupDone, nativeCleanup s)

/-- Whether an operation is the `nativeInit` entry point. -/
def Op.isInit : Op → Bool
  | .init _ => true
  | _ => false

/-- Running a sequence of bridge calls from a state, keeping only the
final state. -/
def run (ops : List Op) (s : EngineState) : EngineState :=
  match ops with
  | [] => s
  | op :: rest => run rest (step op s).2

/-- The lowercased fallback text that the specification says is computed
at line 57 (spec: "the stub discards the lowercased fallback text it
computed internally").  Stated from the spec wording, to be compared with
`phonemizeFallback`, which is what the code actually computes. -/
def specLowercasedFallback (text : String) : String :=
  ⟨text.data.map Char.toLower⟩

/-! Helper lemmas shared by the claim theorems. -/

/-- Both branches of `nativePhonemize` return the state unchanged. -/
theorem phonemize_snd_eq (text voice : String) (s : EngineState) :
    (nativePhonemize text voice s).2 = s := by
  unfold nativePhonemize
  split <;> rfl

/-- Both branches of `nativePhonemize` return `nullptr`. -/
theorem phonemize_fst_eq (text voice : String) (s : EngineState) :
    (nativePhonemize text voice s).1 = none := by
  unfold nativePhonemize
  split <;> rfl

/-- A non-`init` call leaves `g_dataPath` unchanged. -/
theorem step_preserves_dataPath (op : Op) (s : EngineState)
    (h : Op.isInit op = false) : ((step op s).2).g_dataPath = s.g_dataPath := by
  cases op with
  | init d => simp [Op.isInit] at h
  | phonemize t v =>
      show ((nativePhonemize t v s).2).g_dataPath = s.g_dataPath
      rw [phonemize_snd_eq]
  | cleanup => rfl

/-! Claim theorems. -/

/-- C1: whenever the readiness flag is false — before any init and after
any cleanup — `nativePhonemize` returns the absent marker `none` and
leaves the state unchanged, for every text and voice. -/
theorem nativePhonemize_not_ready (text voice : String) (s : EngineState)
    (h : s.g_initialized = false) :
    nativePhonemize text voice s = (none, s) := by
  unfold nativePhonemize
  rw [h]
  simp

/-- C1 witness: at the uninitialized start state with text "hello" and
voice "en-us", the flag is false and the call returns (none, unchanged). -/
theorem nativePhonemize_not_ready_witness :
    initialState.g_initialized = false ∧
    nativePhonemize "hello" "en-us" initialState = (none, initialState) :=
  ⟨rfl, nativePhonemize_not_ready "hello" "en-us" initialState rfl⟩

/-- C2: `nativePhonemize` returns the absent marker `none` for every text,
every voice, and every state — ready or not; the stub never produces a
present phoneme string. -/
theorem nativePhonemize_always_none (text voice : String) (s : EngineState) :
    (nativePhonemize text voice s).1 = none := by
  unfold nativePhonemize
  split <;> rfl

/-- C3: for every data path and every prior state, `nativeInit` records
the path in `g_dataPath`, sets `g_initialized` to true, and returns true;
in particular re-initialization from a ready state overwrites the prior
path and flag. -/
theorem nativeInit_records_path (dataPath : String) (s : EngineState) :
    nativeInit dataPath s =
      (true, { g_initialized := true, g_dataPath := dataPath }) := rfl

/-- C3 witness: initializing twice from the start state overwrites the
recorded path and returns true both times. -/
theorem nativeInit_records_path_witness :
    nativeInit "/other" (nativeInit "/data/voices" initialState).2 =
      (true, { g_initialized := true, g_dataPath := "/other" }) :=
  nativeInit_records_path "/other" (nativeInit "/data/voices" initialState).2

/-- C4: `nativeCleanup` sets the readiness flag to false in every state,
and after any positive number of consecutive cleanups — including from the
never-initialized start state — the flag is false. -/
theorem nativeCleanup_clears_flag (s : EngineState) (n : Nat) :
    (nativeCleanup s).g_initialized = false ∧
    (nativeCleanup^[n + 1] s).g_initialized = false := by
  refine ⟨rfl, ?_⟩
  rw [Function.iterate_succ_apply']
  rfl

/-- C5 counterexample: after init with "/data/voices" followed by cleanup,
`g_dataPath` is not back to its initial (empty) value, so cleanup does not
reset the whole handle. -/
theorem cleanup_leaves_dataPath_cex :
    (nativeCleanup (nativeInit "/data/voices" initialState).2).g_dataPath ≠
      initialState.g_dataPath := by
  decide

/-- C5 amended: `nativeCleanup` resets only the readiness flag to its
initial value; `g_dataPath` keeps whatever value it had. -/
theorem nativeCleanup_resets_flag_only (s : EngineState) :
    (nativeCleanup s).g_initialized = initialState.g_initialized ∧
    (nativeCleanup s).g_dataPath = s.g_dataPath :=
  ⟨rfl, rfl⟩

/-- C6: `nativePhonemize` never changes the state: for every flag value,
path, text and voice, the state after the call equals the state before. -/
theorem nativePhonemize_preserves_state (text voice : String)
    (s : EngineState) : (nativePhonemize text voice s).2 = s := by
  unfold nativePhonemize
  split <;> rfl

/-- C7: from the start state, init("/data/voices") returns true, the
first convert returns none, cleanup clears the flag, and the convert after
cleanup returns none again. -/
theorem scenario_init_convert_cleanup_convert :
    (nativeInit "/data/voices" initialState).1 = true ∧
    (nativePhonemize "hello" "en-us"
      (nativeInit "/data/voices" initialState).2).1 = none ∧
    (nativeCleanup (nativePhonemize "hello" "en-us"
      (nativeInit "/data/voices" initialState).2).2).g_initialized = false ∧
    (nativePhonemize "hello" "en-us"
      (nativeCleanup (nativePhonemize "hello" "en-us"
        (nativeInit "/data/voices" initialState).2).2)).1 = none := by
  decide

/-- C8: no bridge call ever produces a fatal outcome for the host, and
`nativeInit` never reports failure: every call completes with a normal
outcome, and the only failure signal is the absent phonemize result. -/
theorem bridge_never_fatal (op : Op) (s : EngineState) :
    Outcome.isFatal (step op s).1 = false ∧
    (step op s).1 ≠ Outcome.initResult false := by
  cases op with
  | init d => exact ⟨rfl, by simp [step, nativeInit]⟩
  | phonemize t v =>
      refine ⟨?_, by simp [step]⟩
      show Outcome.isFatal (Outcome.phonemizeResult (nativePhonemize t v s).1) = false
      rfl
  | cleanup => exact ⟨rfl, by simp [step]⟩

/-- C9 counterexample: on input "Hello" the internally computed fallback
value is the unmodified copy "Hello", not the lowercased copy "hello" the
claim describes. -/
theorem phonemize_fallback_not_lowercased :
    phonemizeFallback "Hello" ≠ specLowercasedFallback "Hello" := by
  decide

/-- C9 amended: in the ready state `nativePhonemize` internally computes a
plain (unmodified) copy of the input text as a fallback value and discards
it, returning the absent marker instead of that string. -/
theorem nativePhonemize_discards_copied_fallback (text voice : String)
    (s : EngineState) (h : s.g_initialized = true) :
    phonemizeFallback text = text ∧
    (nativePhonemize text voice s).1 = none :=
  ⟨rfl, phonemize_fst_eq text voice s⟩

/-- C9 witness: in the ready state reached by init, on text "Hello" the
fallback is the unmodified copy and the returned value is none. -/
theorem nativePhonemize_discards_copied_fallback_witness :
    ((nativeInit "/data/voices" initialState).2).g_initialized = true ∧
    (phonemizeFallback "Hello" = "Hello" ∧
      (nativePhonemize "Hello" "en-us"
        (nativeInit "/data/voices" initialState).2).1 = none) :=
  ⟨rfl, nativePhonemize_discards_copied_fallback "Hello" "en-us"
    (nativeInit "/data/voices" initialState).2 rfl⟩

/-- C10: a run of any sequence of bridge calls containing no `init` leaves
`g_dataPath` unchanged, so the path recorded by the most recent init
persists across any number of phonemize and cleanup calls. -/
theorem dataPath_persists (ops : List Op) (s : EngineState)
    (h : ∀ op ∈ ops, Op.isInit op = false) :
    (run ops s).g_dataPath = s.g_dataPath := by
  induction ops generalizing s with
  | nil => rfl
  | cons op rest ih =>
      have h1 : Op.isInit op = false := h op (List.mem_cons_self op rest)
      have h2 : ∀ o ∈ rest, Op.isInit o = false :=
        fun o ho => h o (List.mem_cons_of_mem op ho)
      calc (run (op :: rest) s).g_dataPath
          = (run rest (step op s).2).g_dataPath := rfl
        _ = ((step op s).2).g_dataPath := ih (step op s).2 h2
        _ = s.g_dataPath := step_preserves_dataPath op s h1

/-- C10 witness: after init with "/data/voices", a concrete run of two
phonemize calls and two cleanups keeps `g_dataPath` unchanged. -/
theorem dataPath_persists_witness :
    (∀ op ∈ [Op.phonemize "hello" "en-us", Op.cleanup,
        Op.phonemize "hi" "en", Op.cleanup], Op.isInit op = false) ∧
    (run [Op.phonemize "hello" "en-us", Op.cleanup,
        Op.phonemize "hi" "en", Op.cleanup]
      (nativeInit "/data/voices" initialState).2).g_dataPath =
      ((nativeInit "/data/voices" initialState).2).g_dataPath :=
  ⟨by decide, dataPath_persists _ _ (by decide)⟩
